import Mathlib

/-
Shallow embedding of the friend-request core of the social-networking
service (Django app `social_network`): the data model of `models.py`
(FriendRequest, Friendship, BlockedUser, UserActivity with their
`unique_together` constraints) and the state-changing operations of
`views.py` (SendFriendRequestView.perform_create,
AcceptRejectFriendRequestView.update, BlockUnblockUserView.post/delete),
together with the Django cache (TTL key-value store used for cooldown
markers and the per-sender rate counter).

Modelling conventions:
- user ids and timestamps are `Nat` (seconds); 24 hours = 86400, the rate
  window = 60;
- the relational store is a record of lists, kept in insertion order with
  ascending primary keys, so `List.find?` models `QuerySet.first()`;
- `cache.get`/`cache.set` with a timeout become lookups guarded by an
  expiry timestamp;
- database writes performed by an operation are reified as a `WriteOp`
  list executed by `runOps`: inside `transaction.atomic()` (`inTxn = true`)
  a failure rolls the store back to its pre-transaction value while cache
  writes already issued persist (Django never rolls caches back); outside
  a transaction (`inTxn = false`) a failure keeps every write already
  applied.  A `unique_together` violation on insert is an `IntegrityError`,
  modelled by `applyDb` returning `none`; an optional `failAfter` index
  injects an infrastructure failure just before the write with that index.
-/

namespace SocialNetwork

/-- Status choices of `FriendRequest.STATUS_CHOICES` in `models.py`. -/
inductive RStatus
  | PENDING
  | ACCEPTED
  | REJECTED
deriving DecidableEq, Repr

/-- A `FriendRequest` row: sender, receiver, status, timestamps
(`models.py`, class FriendRequest). -/
structure FriendRequest where
  id : Nat
  sender : Nat
  receiver : Nat
  status : RStatus
  createdAt : Nat
  updatedAt : Nat
deriving DecidableEq, Repr

/-- A `Friendship` row (`models.py`, class Friendship). -/
structure Friendship where
  user : Nat
  friend : Nat
  createdAt : Nat
deriving DecidableEq, Repr

/-- A `BlockedUser` row (`models.py`, class BlockedUser). -/
structure BlockedUser where
  user : Nat
  blockedUser : Nat
  createdAt : Nat
deriving DecidableEq, Repr

/-- A `UserActivity` row (`models.py`, class UserActivity). -/
structure UserActivity where
  user : Nat
  activity : String
  timestamp : Nat
deriving DecidableEq, Repr

/-- The relational store: one list per table, in insertion order with
ascending primary keys; `nextId` is the next `FriendRequest` primary key. -/
structure Store where
  users : List Nat
  requests : List FriendRequest
  friendships : List Friendship
  blocked : List BlockedUser
  activities : List UserActivity
  nextId : Nat
deriving DecidableEq, Repr

/-- The Django cache: cooldown markers keyed by the ordered pair
(sender id, receiver id) and rate counters keyed by sender id, each
carrying its absolute expiry timestamp. -/
structure Cache where
  cooldown : List (Nat × Nat × Nat)
  rate : List (Nat × Nat × Nat)
deriving DecidableEq, Repr

/-- `cache.get(f"cooldown_friend_request_{sender.id}_{receiver.id}")`
truthiness: an unexpired marker for the ordered pair exists. -/
def cooldownGet (κ : Cache) (now s r : Nat) : Bool :=
  κ.cooldown.any (fun e => decide (e.1 = s ∧ e.2.1 = r ∧ now < e.2.2))

/-- `cache.set(cooldown_key, True, timeout)`: (re)place the marker for the
ordered pair with the given absolute expiry. -/
def cooldownSet (κ : Cache) (s r expiry : Nat) : Cache :=
  { κ with cooldown :=
      (s, r, expiry) :: κ.cooldown.filter (fun e => !decide (e.1 = s ∧ e.2.1 = r)) }

/-- `cache.get(f"friend_request_count_{sender.id}", 0)`: the counter value
if its key is unexpired, else the default 0. -/
def rateGet (κ : Cache) (now s : Nat) : Nat :=
  match κ.rate.find? (fun e => decide (e.1 = s)) with
  | some e => if now < e.2.2 then e.2.1 else 0
  | none => 0

/-- `cache.set(cache_key, cnt, 60)`: (re)place the counter for the sender
with the given value and absolute expiry. -/
def rateSet (κ : Cache) (s cnt expiry : Nat) : Cache :=
  { κ with rate := (s, cnt, expiry) :: κ.rate.filter (fun e => !decide (e.1 = s)) }

/-- The pair lookup shared by the send and respond paths (`views.py`
lines 141-143 and 209-211):
`FriendRequest.objects.filter(Q(sender=a, receiver=b) | Q(sender=b, receiver=a)).first()`. -/
def findPair (reqs : List FriendRequest) (a b : Nat) : Option FriendRequest :=
  reqs.find? (fun q =>
    decide ((q.sender = a ∧ q.receiver = b) ∨ (q.sender = b ∧ q.receiver = a)))

/-- A primitive database write issued by one of the operations. -/
inductive DbWrite
  | insertRequest (q : FriendRequest)
  | updateRequestStatus (i : Nat) (st : RStatus) (now : Nat)
  | insertFriendship (f : Friendship)
  | insertActivity (a : UserActivity)
deriving DecidableEq, Repr

/-- Apply one database write.  Inserts into tables carrying a
`unique_together` constraint (`FriendRequest (sender, receiver)`,
`Friendship (user, friend)`) return `none` on violation, the
`IntegrityError` Django raises. -/
def applyDb (σ : Store) : DbWrite → Option Store
  | .insertRequest q =>
      if σ.requests.any (fun p => decide (p.sender = q.sender ∧ p.receiver = q.receiver)) then
        none
      else
        some { σ with requests := σ.requests ++ [q], nextId := σ.nextId + 1 }
  | .updateRequestStatus i st now =>
      some { σ with requests :=
        σ.requests.map (fun q =>
          if q.id = i then { q with status := st, updatedAt := now } else q) }
  | .insertFriendship f =>
      if σ.friendships.any (fun g => decide (g.user = f.user ∧ g.friend = f.friend)) then
        none
      else
        some { σ with friendships := σ.friendships ++ [f] }
  | .insertActivity a =>
      some { σ with activities := σ.activities ++ [a] }

/-- A write issued during an operation: a database write or a cache write. -/
inductive WriteOp
  | db (w : DbWrite)
  | cacheRate (s cnt expiry : Nat)
  | cacheCooldown (s r expiry : Nat)
deriving DecidableEq, Repr

/-- Apply one write to store and cache. -/
def applyWrite (sc : Store × Cache) : WriteOp → Option (Store × Cache)
  | .db w => (applyDb sc.1 w).map (fun σ => (σ, sc.2))
  | .cacheRate s cnt expiry => some (sc.1, rateSet sc.2 s cnt expiry)
  | .cacheCooldown s r expiry => some (sc.1, cooldownSet sc.2 s r expiry)

/-- Execute a write list.  `σ0` is the store at entry of the operation.
On a failure — an injected infrastructure failure just before the write
with index `failAfter`, or an `IntegrityError` from `applyDb` — the store
rolls back to `σ0` when the writes run inside `transaction.atomic()`
(`inTxn = true`) and keeps the writes already applied otherwise; cache
writes already issued persist in either case, as Django caches are not
transactional.  The boolean reports whether every write was applied. -/
def runOps (inTxn : Bool) (σ0 : Store) :
    Store × Cache → List WriteOp → Option Nat → (Store × Cache) × Bool
  | sc, [], _ => (sc, true)
  | sc, w :: ws, failAfter =>
      if failAfter = some 0 then ((if inTxn then σ0 else sc.1, sc.2), false)
      else
        match applyWrite sc w with
        | none => ((if inTxn then σ0 else sc.1, sc.2), false)
        | some sc' => runOps inTxn σ0 sc' ws (failAfter.map (fun n => n - 1))

/-- Outcome of `SendFriendRequestView.perform_create`. -/
inductive SendResult
  | created
  | pendingExists
  | alreadyFriends
  | rejectedExists
  | cooldownActive
  | blockedOutcome
  | rateLimited
  | recentRejected
  | integrityError
deriving DecidableEq, Repr

/-- `SendFriendRequestView.perform_create` (`views.py` lines 136-179) with
an optional injected infrastructure failure inside the transaction.
Checks in source order: existing pair row (status-specific outcome),
cooldown marker, receiver-has-blocked-sender, per-sender rate counter,
REJECTED row from sender to receiver updated within 24 hours; then, inside
`transaction.atomic()`: insert the PENDING row, set the rate counter with
a fresh 60-second timeout, append the activity row. -/
def sendRequestF (failAfter : Option Nat) (σ : Store) (κ : Cache)
    (now sender receiver : Nat) : SendResult × Store × Cache :=
  match findPair σ.requests sender receiver with
  | some existing =>
      match existing.status with
      | .PENDING => (.pendingExists, σ, κ)
      | .ACCEPTED => (.alreadyFriends, σ, κ)
      | .REJECTED => (.rejectedExists, σ, κ)
  | none =>
      if cooldownGet κ now sender receiver then (.cooldownActive, σ, κ)
      else if σ.blocked.any (fun b => decide (b.user = receiver ∧ b.blockedUser = sender)) then
        (.blockedOutcome, σ, κ)
      else if 3 ≤ rateGet κ now sender then (.rateLimited, σ, κ)
      else if σ.requests.any (fun q =>
          decide (q.sender = sender ∧ q.receiver = receiver ∧
            q.status = .REJECTED ∧ now ≤ q.updatedAt + 86400)) then
        (.recentRejected, σ, κ)
      else
        match runOps true σ (σ, κ)
          [.db (.insertRequest ⟨σ.nextId, sender, receiver, .PENDING, now, now⟩),
           .cacheRate sender (rateGet κ now sender + 1) (now + 60),
           .db (.insertActivity ⟨sender, "Sent friend request", now⟩)] failAfter with
        | (sc, true) => (.created, sc.1, sc.2)
        | (sc, false) => (.integrityError, sc.1, sc.2)

/-- `SendFriendRequestView.perform_create` without injected failures. -/
def sendRequest (σ : Store) (κ : Cache) (now sender receiver : Nat) :
    SendResult × Store × Cache :=
  sendRequestF none σ κ now sender receiver

/-- Outcome of `AcceptRejectFriendRequestView.update`. -/
inductive RespondResult
  | updated (st : RStatus)
  | pendingExists
  | alreadyFriends
  | rejectedExists
  | forbidden
  | statusRequired
  | notFound
  | integrityError
deriving DecidableEq, Repr

/-- The conflicting-row re-check of `AcceptRejectFriendRequestView.update`
(`views.py` lines 206-211): the pair lookup applied to
`sender = self.request.user` (the caller) and `receiver = instance.receiver`. -/
def respondRecheck (reqs : List FriendRequest) (caller : Nat)
    (inst : FriendRequest) : Option FriendRequest :=
  findPair reqs caller inst.receiver

/-- `AcceptRejectFriendRequestView.update` (`views.py` lines 202-249) with
an optional injected infrastructure failure.  `get_object` resolves the
id within `get_queryset` (requests whose receiver is the caller); then the
conflicting-row re-check, the receiver-only guard, the required-status
check; a REJECTED response sets the 24-hour cooldown marker before the
update; an ACCEPTED response is followed by the two `Friendship.objects.create`
calls and the activity append.  None of these writes runs inside a
transaction. -/
def respondF (failAfter : Option Nat) (σ : Store) (κ : Cache)
    (now caller reqId : Nat) (newStatus : Option RStatus) :
    RespondResult × Store × Cache :=
  match σ.requests.find? (fun q => decide (q.id = reqId ∧ q.receiver = caller)) with
  | none => (.notFound, σ, κ)
  | some inst =>
      match respondRecheck σ.requests caller inst with
      | some existing =>
          match existing.status with
          | .PENDING => (.pendingExists, σ, κ)
          | .ACCEPTED => (.alreadyFriends, σ, κ)
          | .REJECTED => (.rejectedExists, σ, κ)
      | none =>
          if inst.receiver ≠ caller then (.forbidden, σ, κ)
          else
            match newStatus with
            | none => (.statusRequired, σ, κ)
            | some st =>
                match runOps false σ (σ, κ)
                  ((if st = .REJECTED then
                    [WriteOp.cacheCooldown inst.sender inst.receiver (now + 86400)]
                  else []) ++
                  [.db (.updateRequestStatus inst.id st now)] ++
                  (if st = .ACCEPTED then
                    [.db (.insertFriendship ⟨inst.sender, inst.receiver, now⟩),
                     .db (.insertFriendship ⟨inst.receiver, inst.sender, now⟩),
                     .db (.insertActivity ⟨caller, "Accepted friend request", now⟩)]
                  else [])) failAfter with
                | (sc, true) => (.updated st, sc.1, sc.2)
                | (sc, false) => (.integrityError, sc.1, sc.2)

/-- `AcceptRejectFriendRequestView.update` without injected failures. -/
def respond (σ : Store) (κ : Cache) (now caller reqId : Nat)
    (newStatus : Option RStatus) : RespondResult × Store × Cache :=
  respondF none σ κ now caller reqId newStatus

/-- Outcome of `BlockUnblockUserView.post`. -/
inductive BlockResult
  | selfBlock
  | userNotFound
  | blockedOk
  | alreadyBlocked
deriving DecidableEq, Repr

/-- A `FriendRequest` row connecting the unordered pair in either
direction, the filter deleted by `BlockUnblockUserView.post`. -/
def connectsPairReq (a b : Nat) (q : FriendRequest) : Bool :=
  decide ((q.sender = a ∧ q.receiver = b) ∨ (q.sender = b ∧ q.receiver = a))

/-- A `Friendship` row connecting the unordered pair in either direction,
the filter deleted by `BlockUnblockUserView.post`. -/
def connectsPairFr (a b : Nat) (f : Friendship) : Bool :=
  decide ((f.user = a ∧ f.friend = b) ∨ (f.user = b ∧ f.friend = a))

/-- `BlockUnblockUserView.post` (`views.py` lines 306-329): reject a
self-block, 404 an unknown user, `get_or_create` the `BlockedUser` row;
when it is newly created, delete every `FriendRequest` and `Friendship`
row connecting the pair in either direction. -/
def block (σ : Store) (now blocker target : Nat) : BlockResult × Store :=
  if target = blocker then (.selfBlock, σ)
  else if !σ.users.contains target then (.userNotFound, σ)
  else if σ.blocked.any (fun b => decide (b.user = blocker ∧ b.blockedUser = target)) then
    (.alreadyBlocked, σ)
  else
    (.blockedOk,
      { σ with
        blocked := σ.blocked ++ [⟨blocker, target, now⟩],
        requests := σ.requests.filter (fun q => !connectsPairReq blocker target q),
        friendships := σ.friendships.filter (fun f => !connectsPairFr blocker target f) })

/-- Outcome of `BlockUnblockUserView.delete`. -/
inductive UnblockResult
  | selfUnblock
  | userNotFound
  | unblocked
  | notBlocked
deriving DecidableEq, Repr

/-- `BlockUnblockUserView.delete` (`views.py` lines 331-345): reject a
self-unblock, 404 an unknown user, delete the `BlockedUser(blocker, target)`
row if present, else report not blocked. -/
def unblock (σ : Store) (blocker target : Nat) : UnblockResult × Store :=
  if target = blocker then (.selfUnblock, σ)
  else if !σ.users.contains target then (.userNotFound, σ)
  else if σ.blocked.any (fun b => decide (b.user = blocker ∧ b.blockedUser = target)) then
    (.unblocked,
      { σ with blocked :=
          σ.blocked.filter (fun b => !decide (b.user = blocker ∧ b.blockedUser = target)) })
  else (.notBlocked, σ)

/-- Boolean pairwise predicate over a list, used to state uniqueness
constraints over table contents. -/
def pairwiseB (p : α → α → Bool) : List α → Bool
  | [] => true
  | x :: xs => xs.all (p x) && pairwiseB p xs

/-- The storage-level constraint the source declares on `FriendRequest`
(`models.py` line 119): `unique_together = ('sender', 'receiver')` — no
two rows share the same ordered (sender, receiver) pair. -/
def requestsStorageOk (σ : Store) : Bool :=
  pairwiseB (fun q1 q2 => !decide (q1.sender = q2.sender ∧ q1.receiver = q2.receiver))
    σ.requests

/-- Uniqueness over the unordered pair, the property the spec attributes
to the storage constraint: no two rows connect the same pair of users in
either orientation. -/
def pairUniqueUnordered (σ : Store) : Bool :=
  pairwiseB (fun q1 q2 =>
      !decide ((q1.sender = q2.sender ∧ q1.receiver = q2.receiver) ∨
        (q1.sender = q2.receiver ∧ q1.receiver = q2.sender)))
    σ.requests

/-- The empty cache. -/
def κ0 : Cache := ⟨[], []⟩

/-- The outcomes of `perform_create` produced by its validation checks,
as opposed to the success outcome and the infrastructure outcome. -/
def SendResult.isCheckRejection : SendResult → Bool
  | .pendingExists => true
  | .alreadyFriends => true
  | .rejectedExists => true
  | .cooldownActive => true
  | .blockedOutcome => true
  | .rateLimited => true
  | .recentRejected => true
  | .created => false
  | .integrityError => false

/-! ### Helper lemmas -/

/-- Appending one element to a `pairwiseB` list: the old list stays
pairwise and every old element relates to the new one. -/
theorem pairwiseB_append (p : α → α → Bool) (l : List α) (a : α) :
    pairwiseB p (l ++ [a]) = (pairwiseB p l && l.all (fun x => p x a)) := by
  induction l with
  | nil => simp [pairwiseB]
  | cons x xs ih =>
      simp only [List.append_eq, List.cons_append, pairwiseB, List.all_append,
        List.all_cons, List.all_nil, Bool.and_true, ih]
      simp only [Bool.and_assoc, Bool.and_comm, Bool.and_left_comm]

/-- `pairwiseB_append` unfolded to propositions. -/
theorem pairwiseB_append_iff (p : α → α → Bool) (l : List α) (a : α) :
    pairwiseB p (l ++ [a]) = true ↔
      (pairwiseB p l = true ∧ ∀ x ∈ l, p x a = true) := by
  rw [pairwiseB_append, Bool.and_eq_true, List.all_eq_true]

/-- `pairwiseB` is monotone in the relation. -/
theorem pairwiseB_imp (p q : α → α → Bool) (hpq : ∀ a b, p a b = true → q a b = true)
    (l : List α) (h : pairwiseB p l = true) : pairwiseB q l = true := by
  induction l with
  | nil => rfl
  | cons x xs ih =>
      simp only [pairwiseB, Bool.and_eq_true, List.all_eq_true] at h ⊢
      exact ⟨fun y hy => hpq x y (h.1 y hy), ih h.2⟩

/-- Unordered uniqueness of the request table implies the ordered
`unique_together ('sender', 'receiver')` constraint. -/
theorem pairUnique_imp_storageOk (σ : Store) (h : pairUniqueUnordered σ = true) :
    requestsStorageOk σ = true := by
  refine pairwiseB_imp _ _ (fun q1 q2 hp => ?_) _ h
  simp only [Bool.not_eq_true', decide_eq_false_iff_not] at hp ⊢
  exact fun hord => hp (Or.inl hord)

/-- If the pair lookup finds nothing, no row carries the ordered pair
(a, b): the `unique_together` constraint cannot fire on inserting it. -/
theorem findPair_none_ordered (reqs : List FriendRequest) (a b : Nat)
    (h : findPair reqs a b = none) :
    reqs.any (fun p => decide (p.sender = a ∧ p.receiver = b)) = false := by
  rw [List.any_eq_false]
  intro q hq
  have hq' := List.find?_eq_none.mp h q hq
  simp only [decide_eq_true_eq] at hq' ⊢
  exact fun hab => hq' (Or.inl hab)

/-- If the pair lookup finds nothing, no row connects the pair in either
direction. -/
theorem findPair_none_unordered (reqs : List FriendRequest) (a b : Nat)
    (h : findPair reqs a b = none) :
    ∀ q ∈ reqs, ¬((q.sender = a ∧ q.receiver = b) ∨ (q.sender = b ∧ q.receiver = a)) := by
  intro q hq
  have hq' := List.find?_eq_none.mp h q hq
  simpa using hq'

/-- Evaluation of the transactional write list of `perform_create` with
no injected failure: the PENDING row and the activity row are inserted
and the rate counter replaced. -/
theorem runSendOps_eval (σ : Store) (κ : Cache) (now s r cnt : Nat)
    (hins : σ.requests.any (fun p => decide (p.sender = s ∧ p.receiver = r)) = false) :
    runOps true σ (σ, κ)
      [.db (.insertRequest ⟨σ.nextId, s, r, .PENDING, now, now⟩),
       .cacheRate s cnt (now + 60),
       .db (.insertActivity ⟨s, "Sent friend request", now⟩)] none =
      (({ σ with
            requests := σ.requests ++ [⟨σ.nextId, s, r, .PENDING, now, now⟩],
            activities := σ.activities ++ [⟨s, "Sent friend request", now⟩],
            nextId := σ.nextId + 1 },
         rateSet κ s cnt (now + 60)), true) := by
  have hins' : ¬ ∃ x ∈ σ.requests, x.sender = s ∧ x.receiver = r := by
    simpa using hins
  simp [runOps, applyWrite, applyDb, hins']

/-! ### Claim C1 -/

/-- A store satisfying the declared `unique_together ('sender', 'receiver')`
constraint of `models.py` while holding both orientations of the same
user pair. -/
def σc1 : Store :=
  ⟨[1, 2], [⟨1, 1, 2, .PENDING, 0, 0⟩, ⟨2, 2, 1, .PENDING, 5, 5⟩], [], [], [], 3⟩

/-- C1 counterexample: the storage-level uniqueness constraint the model
declares is on the ordered pair only, so a store holding both rows (1, 2)
and (2, 1) satisfies it while violating unordered-pair uniqueness — the
constraint does not make the two orientations unable to coexist. -/
theorem c1_storage_constraint_cex :
    requestsStorageOk σc1 = true ∧ pairUniqueUnordered σc1 = false := by decide

/-- C1 amended: only the ordered-pair constraint exists in storage;
unordered-pair uniqueness is maintained solely by the read-then-write
duplicate check of `perform_create`, which (absent concurrent
interleaving) preserves it: a send starting from a store that is unique
per unordered pair leaves a store that is unique per unordered pair, and
in particular one that satisfies the declared ordered constraint. -/
theorem c1_send_check_preserves_pair_uniqueness (σ : Store) (κ : Cache)
    (now s r : Nat) (h : pairUniqueUnordered σ = true) :
    pairUniqueUnordered (sendRequest σ κ now s r).2.1 = true ∧
    requestsStorageOk (sendRequest σ κ now s r).2.1 = true := by
  obtain ⟨res, σ', κ', hrun⟩ : ∃ res σ' κ', sendRequest σ κ now s r = (res, σ', κ') :=
    ⟨_, _, _, rfl⟩
  rw [hrun]
  unfold sendRequest sendRequestF at hrun
  cases hfp : findPair σ.requests s r with
  | some ex =>
      simp only [hfp] at hrun
      cases hex : ex.status <;> simp only [hex] at hrun <;>
        · have hσ : σ = σ' := congrArg (fun t => t.2.1) hrun
          rw [← hσ]
          exact ⟨h, pairUnique_imp_storageOk σ h⟩
  | none =>
      simp only [hfp] at hrun
      by_cases h2 : cooldownGet κ now s r = true
      · rw [if_pos h2] at hrun
        have hσ : σ = σ' := congrArg (fun t => t.2.1) hrun
        rw [← hσ]; exact ⟨h, pairUnique_imp_storageOk σ h⟩
      · rw [if_neg h2] at hrun
        by_cases h3 : σ.blocked.any (fun b => decide (b.user = r ∧ b.blockedUser = s)) = true
        · rw [if_pos h3] at hrun
          have hσ : σ = σ' := congrArg (fun t => t.2.1) hrun
          rw [← hσ]; exact ⟨h, pairUnique_imp_storageOk σ h⟩
        · rw [if_neg h3] at hrun
          by_cases h4 : 3 ≤ rateGet κ now s
          · rw [if_pos h4] at hrun
            have hσ : σ = σ' := congrArg (fun t => t.2.1) hrun
            rw [← hσ]; exact ⟨h, pairUnique_imp_storageOk σ h⟩
          · rw [if_neg h4] at hrun
            by_cases h5 : σ.requests.any (fun q => decide (q.sender = s ∧ q.receiver = r ∧
                q.status = RStatus.REJECTED ∧ now ≤ q.updatedAt + 86400)) = true
            · rw [if_pos h5] at hrun
              have hσ : σ = σ' := congrArg (fun t => t.2.1) hrun
              rw [← hσ]; exact ⟨h, pairUnique_imp_storageOk σ h⟩
            · rw [if_neg h5] at hrun
              rw [runSendOps_eval σ κ now s r (rateGet κ now s + 1)
                (findPair_none_ordered _ _ _ hfp)] at hrun
              have hσ : _ = σ' := congrArg (fun t => t.2.1) hrun
              rw [← hσ]
              have hnew : ∀ x ∈ σ.requests,
                  ¬((x.sender = s ∧ x.receiver = r) ∨ (x.sender = r ∧ x.receiver = s)) :=
                findPair_none_unordered _ _ _ hfp
              constructor
              · show pairwiseB _
                  (σ.requests ++ [⟨σ.nextId, s, r, .PENDING, now, now⟩]) = true
                rw [pairwiseB_append, Bool.and_eq_true, List.all_eq_true]
                refine ⟨h, fun x hx => ?_⟩
                simp only [Bool.not_eq_true', decide_eq_false_iff_not]
                exact hnew x hx
              · show pairwiseB _
                  (σ.requests ++ [⟨σ.nextId, s, r, .PENDING, now, now⟩]) = true
                rw [pairwiseB_append, Bool.and_eq_true, List.all_eq_true]
                refine ⟨pairUnique_imp_storageOk σ h, fun x hx => ?_⟩
                simp only [Bool.not_eq_true', decide_eq_false_iff_not]
                exact fun hord => hnew x hx (Or.inl hord)

/-- Store for the C1 witness: a fresh pair with no prior rows. -/
def σw1 : Store := ⟨[1, 2], [], [], [], [], 1⟩

/-- C1 witness: the preservation theorem applied to a concrete send. -/
theorem c1_witness :
    pairUniqueUnordered σw1 = true ∧
    (pairUniqueUnordered (sendRequest σw1 κ0 0 1 2).2.1 = true ∧
     requestsStorageOk (sendRequest σw1 κ0 0 1 2).2.1 = true) :=
  ⟨by decide, c1_send_check_preserves_pair_uniqueness σw1 κ0 0 1 2 (by decide)⟩

/-! ### Claim C2 -/

/-- A pending request from user 1 to user 2, about to be rejected. -/
def σc2 : Store := ⟨[1, 2], [⟨1, 1, 2, .PENDING, 0, 0⟩], [], [], [], 2⟩

/-- C2 counterexample: user 2 rejects at time 0; at time 100000 the
24-hour cooldown marker has expired, the rate counter is empty and no
block exists, yet re-sending still fails with the REJECTED-row outcome —
the claimed success after cooldown expiry never happens, because the
duplicate-row check matches the surviving REJECTED row with no time
bound. -/
theorem c2_resend_after_cooldown_cex :
    (respond σc2 κ0 0 2 1 (some .REJECTED)).1 = .updated .REJECTED ∧
    cooldownGet (respond σc2 κ0 0 2 1 (some .REJECTED)).2.2 100000 1 2 = false ∧
    rateGet (respond σc2 κ0 0 2 1 (some .REJECTED)).2.2 100000 1 = 0 ∧
    (respond σc2 κ0 0 2 1 (some .REJECTED)).2.1.blocked = [] ∧
    (sendRequest (respond σc2 κ0 0 2 1 (some .REJECTED)).2.1
        (respond σc2 κ0 0 2 1 (some .REJECTED)).2.2 100000 1 2).1 = .rejectedExists ∧
    (sendRequest (respond σc2 κ0 0 2 1 (some .REJECTED)).2.1
        (respond σc2 κ0 0 2 1 (some .REJECTED)).2.2 100000 1 2).1 ≠ .created := by
  decide

/-- C2 amended: as long as the pair lookup finds a REJECTED row for the
pair, `perform_create` rejects — at every time, within the 24-hour window
and after it alike: the rejection-cooldown never expires while the row
exists, because the duplicate-row check carries no time bound. -/
theorem c2_rejected_row_rejects_forever (σ : Store) (κ : Cache) (now s r : Nat)
    (ex : FriendRequest) (hfind : findPair σ.requests s r = some ex)
    (hst : ex.status = .REJECTED) :
    (sendRequest σ κ now s r).1 = .rejectedExists := by
  unfold sendRequest sendRequestF
  simp only [hfind, hst]

/-- Store for the C2 witness: the REJECTED row rejected at time 0. -/
def σw2 : Store := ⟨[1, 2], [⟨1, 1, 2, .REJECTED, 0, 0⟩], [], [], [], 2⟩

/-- C2 witness: a resend 100000 seconds after the rejection — far past
the 24-hour cooldown — still rejects. -/
theorem c2_witness :
    findPair σw2.requests 1 2 = some ⟨1, 1, 2, .REJECTED, 0, 0⟩ ∧
    (sendRequest σw2 κ0 100000 1 2).1 = .rejectedExists :=
  ⟨by decide,
   c2_rejected_row_rejects_forever σw2 κ0 100000 1 2 ⟨1, 1, 2, .REJECTED, 0, 0⟩
     (by decide) rfl⟩

/-! ### Claim C3 -/

/-- Users 1 and 2 are friends (ACCEPTED row and both Friendship rows)
before user 1 blocks user 2. -/
def σc3 : Store :=
  ⟨[1, 2], [⟨1, 1, 2, .ACCEPTED, 0, 0⟩], [⟨1, 2, 0⟩, ⟨2, 1, 0⟩], [], [], 2⟩

/-- C3 counterexample: after user 1 blocks user 2, a send from the
blocker 1 to the blocked user 2 is NOT rejected — it creates a new
PENDING row — because the block check only tests whether the receiver
has blocked the sender, never the converse. -/
theorem c3_blocker_can_send_cex :
    (block σc3 10 1 2).1 = .blockedOk ∧
    (sendRequest (block σc3 10 1 2).2 κ0 20 1 2).1 = .created ∧
    (sendRequest (block σc3 10 1 2).2 κ0 20 1 2).1 ≠ .blockedOutcome := by decide

/-- C3 amended: a newly created block deletes every FriendRequest and
Friendship row connecting the pair in either direction, and afterwards a
send from the blocked user to the blocker is rejected by the block check
(a send from the blocker to the blocked user is not). -/
theorem c3_block_cascade_and_reverse_send (σ : Store) (κ : Cache)
    (now now' a b : Nat) (σ' : Store)
    (hb : block σ now a b = (.blockedOk, σ'))
    (hcd : cooldownGet κ now' b a = false) :
    (∀ q ∈ σ'.requests, connectsPairReq a b q = false) ∧
    (∀ f ∈ σ'.friendships, connectsPairFr a b f = false) ∧
    (sendRequest σ' κ now' b a).1 = .blockedOutcome := by
  unfold block at hb
  split at hb
  · simp at hb
  · split at hb
    · simp at hb
    · split at hb
      · simp at hb
      · have hreq : σ'.requests = σ.requests.filter (fun q => !connectsPairReq a b q) :=
          (congrArg (fun t => Store.requests t.2) hb).symm
        have hfr : σ'.friendships =
            σ.friendships.filter (fun f => !connectsPairFr a b f) :=
          (congrArg (fun t => Store.friendships t.2) hb).symm
        have hbl : σ'.blocked = σ.blocked ++ [⟨a, b, now⟩] :=
          (congrArg (fun t => Store.blocked t.2) hb).symm
        refine ⟨?_, ?_, ?_⟩
        · intro q hq
          rw [hreq] at hq
          have := (List.mem_filter.mp hq).2
          simpa using this
        · intro f hf
          rw [hfr] at hf
          have := (List.mem_filter.mp hf).2
          simpa using this
        · have hfp : findPair σ'.requests b a = none := by
            rw [hreq]
            refine List.find?_eq_none.mpr ?_
            intro q hq
            have h2 := (List.mem_filter.mp hq).2
            simp only [connectsPairReq, Bool.not_eq_true', decide_eq_false_iff_not] at h2
            simp only [decide_eq_true_eq]
            tauto
          have hblk : σ'.blocked.any
              (fun x => decide (x.user = a ∧ x.blockedUser = b)) = true := by
            rw [hbl, List.any_append]
            simp
          unfold sendRequest sendRequestF
          rw [hfp, if_neg (by simp [hcd]), if_pos hblk]

/-- Fixture for the C3 witness: the pre-block store. -/
def σw3 : Store :=
  ⟨[1, 2], [⟨1, 1, 2, .ACCEPTED, 0, 0⟩], [⟨1, 2, 0⟩, ⟨2, 1, 0⟩], [], [], 2⟩

/-- Fixture for the C3 witness: the post-block store. -/
def σw3' : Store := ⟨[1, 2], [], [], [⟨1, 2, 10⟩], [], 2⟩

/-- C3 witness: the cascade-and-directional-rejection theorem applied to
a concrete block of user 2 by user 1. -/
theorem c3_witness :
    (∀ q ∈ σw3'.requests, connectsPairReq 1 2 q = false) ∧
    (∀ f ∈ σw3'.friendships, connectsPairFr 1 2 f = false) ∧
    (sendRequest σw3' κ0 20 2 1).1 = .blockedOutcome :=
  c3_block_cascade_and_reverse_send σw3 κ0 10 20 1 2 σw3' (by decide) (by decide)

/-! ### Claim C4 -/

/-- A pending request from user 1 to user 2, about to be accepted. -/
def σc4 : Store := ⟨[1, 2], [⟨1, 1, 2, .PENDING, 0, 0⟩], [], [], [], 2⟩

/-- C4 counterexample: accepting with an infrastructure failure after the
first `Friendship.objects.create` leaves the status update and the single
Friendship row (1, 2) committed, with neither the mirror row (2, 1) nor
the activity entry — partial state, because the respond path runs no
transaction. -/
theorem c4_accept_partial_failure_cex :
    (respondF (some 2) σc4 κ0 10 2 1 (some .ACCEPTED)).2.1.friendships = [⟨1, 2, 10⟩] ∧
    (respondF (some 2) σc4 κ0 10 2 1 (some .ACCEPTED)).2.1.requests =
      [⟨1, 1, 2, .ACCEPTED, 0, 10⟩] ∧
    (respondF (some 2) σc4 κ0 10 2 1 (some .ACCEPTED)).2.1.activities = [] := by decide

/-- C4 amended: accepting a request updates the row and then creates the
two Friendship rows and the activity entry sequentially, with no
transaction: an uninterrupted run produces exactly the two rows and the
log entry, but a failure after the first Friendship insert leaves that
row without its mirror. -/
theorem c4_accept_creates_both_rows_nonatomic (σ : Store) (κ : Cache)
    (now caller reqId : Nat) (inst : FriendRequest)
    (hfind : σ.requests.find? (fun q => decide (q.id = reqId ∧ q.receiver = caller)) =
      some inst)
    (hrc : respondRecheck σ.requests caller inst = none)
    (hab : inst.sender ≠ inst.receiver)
    (hf1 : σ.friendships.any (fun g =>
      decide (g.user = inst.sender ∧ g.friend = inst.receiver)) = false)
    (hf2 : σ.friendships.any (fun g =>
      decide (g.user = inst.receiver ∧ g.friend = inst.sender)) = false) :
    respond σ κ now caller reqId (some .ACCEPTED) =
      (.updated .ACCEPTED,
        { σ with
            requests := σ.requests.map (fun q =>
              if q.id = inst.id then { q with status := .ACCEPTED, updatedAt := now }
              else q),
            friendships := σ.friendships ++
              [⟨inst.sender, inst.receiver, now⟩, ⟨inst.receiver, inst.sender, now⟩],
            activities := σ.activities ++ [⟨caller, "Accepted friend request", now⟩] },
        κ) ∧
    (respondF (some 2) σ κ now caller reqId (some .ACCEPTED)).2.1.friendships =
      σ.friendships ++ [⟨inst.sender, inst.receiver, now⟩] := by
  have hrcv : inst.receiver = caller := by
    have := List.find?_some hfind
    simp only [decide_eq_true_eq] at this
    exact this.2
  have hf1' : ¬ ∃ g ∈ σ.friendships, g.user = inst.sender ∧ g.friend = inst.receiver := by
    simpa using hf1
  have hf2' : ¬ ∃ g ∈ σ.friendships, g.user = inst.receiver ∧ g.friend = inst.sender := by
    simpa using hf2
  have hf1c : ¬ ∃ g ∈ σ.friendships, g.user = inst.sender ∧ g.friend = caller :=
    hrcv ▸ hf1'
  have hf2c : ¬ ∃ g ∈ σ.friendships, g.user = caller ∧ g.friend = inst.sender :=
    hrcv ▸ hf2'
  have habc : inst.sender ≠ caller := hrcv ▸ hab
  constructor
  · unfold respond respondF
    simp only [hfind, hrc, hrcv]
    simp [runOps, applyWrite, applyDb, hf1c, hf2c, habc]
  · unfold respondF
    simp only [hfind, hrc, hrcv]
    simp [runOps, applyWrite, applyDb, hf1c]

/-- Fixture for the C4 witness. -/
def σw4 : Store := ⟨[1, 2], [⟨1, 1, 2, .PENDING, 0, 0⟩], [], [], [], 2⟩

/-- C4 witness: the non-atomic acceptance theorem applied to a concrete
pending request. -/
theorem c4_witness :
    respond σw4 κ0 10 2 1 (some .ACCEPTED) =
      (.updated .ACCEPTED,
        { σw4 with
            requests := σw4.requests.map (fun q =>
              if q.id = 1 then { q with status := .ACCEPTED, updatedAt := 10 } else q),
            friendships := σw4.friendships ++ [⟨1, 2, 10⟩, ⟨2, 1, 10⟩],
            activities := σw4.activities ++ [⟨2, "Accepted friend request", 10⟩] },
        κ0) ∧
    (respondF (some 2) σw4 κ0 10 2 1 (some .ACCEPTED)).2.1.friendships =
      σw4.friendships ++ [⟨1, 2, 10⟩] :=
  c4_accept_creates_both_rows_nonatomic σw4 κ0 10 2 1 ⟨1, 1, 2, .PENDING, 0, 0⟩
    (by decide) (by decide) (by decide) (by decide) (by decide)

/-! ### Claim C5 -/

/-- Five users, user 1 about to send three requests. -/
def σc5 : Store := ⟨[1, 2, 3, 4, 5], [], [], [], [], 1⟩

/-- First send of user 1, at time 0. -/
def c5s1 := sendRequest σc5 κ0 0 1 2

/-- Second send of user 1, at time 30. -/
def c5s2 := sendRequest c5s1.2.1 c5s1.2.2 30 1 3

/-- Third send of user 1, at time 59. -/
def c5s3 := sendRequest c5s2.2.1 c5s2.2.2 59 1 4

/-- C5 counterexample: user 1 sends at times 0, 30 and 59; a fourth send
at time 70 — more than 60 seconds after the first, with only the sends at
30 and 59 in the trailing 60-second window — is still rejected, because
each `cache.set` gave the counter a fresh 60-second timeout, so the
counter set at time 59 is alive until 119.  Under the claimed semantics
(reset 60 s after the first increment, trailing window) this send would
succeed. -/
theorem c5_rate_window_cex :
    c5s1.1 = .created ∧ c5s2.1 = .created ∧ c5s3.1 = .created ∧
    (sendRequest c5s3.2.1 c5s3.2.2 70 1 5).1 = .rateLimited ∧
    (sendRequest c5s3.2.1 c5s3.2.2 70 1 5).1 ≠ .created := by decide

/-- C5 amended: the counter's expiry is refreshed by every successful
send (values (1, 60), (2, 90), (3, 119) after the sends at 0, 30, 59): a
fourth request is rejected while the counter set by the third send is
alive — even more than 60 seconds after the first send — and succeeds
once 60 seconds have passed since the third send. -/
theorem c5_rate_counter_refreshes_expiry :
    c5s1.2.2.rate = [(1, 1, 60)] ∧
    c5s2.2.2.rate = [(1, 2, 90)] ∧
    c5s3.2.2.rate = [(1, 3, 119)] ∧
    (sendRequest c5s3.2.1 c5s3.2.2 70 1 5).1 = .rateLimited ∧
    (sendRequest c5s3.2.1 c5s3.2.2 119 1 5).1 = .created := by decide

/-! ### Claim C6 -/

/-- A fresh store for user 1 sending to user 2 with every check passing. -/
def σc6 : Store := ⟨[1, 2], [], [], [], [], 1⟩

/-- C6 counterexample: all checks pass, and an infrastructure failure at
the activity write (index 2 of the transactional write list) rolls the
two database writes back — yet the cache sits outside the transaction, so
the rate counter increment issued just before survives: the three effects
are not all-or-nothing. -/
theorem c6_cache_increment_survives_failure_cex :
    (sendRequest σc6 κ0 0 1 2).1 = .created ∧
    (sendRequestF (some 2) σc6 κ0 0 1 2).2.1 = σc6 ∧
    (sendRequestF (some 2) σc6 κ0 0 1 2).2.2 ≠ κ0 ∧
    rateGet (sendRequestF (some 2) σc6 κ0 0 1 2).2.2 0 1 = 1 := by decide

/-- C6 amended: when all checks pass, the FriendRequest insert and the
activity append are atomic together — a failure at any point of the write
list leaves the store exactly as it was, or the whole operation completes
— but the rate-counter increment is a cache write outside the rollback: a
failure at the activity write (index 2) leaves the counter freshly set
while no row was inserted. -/
theorem c6_db_atomic_cache_not (σ : Store) (κ : Cache) (now s r k : Nat)
    (h1 : findPair σ.requests s r = none)
    (h2 : cooldownGet κ now s r = false)
    (h3 : σ.blocked.any (fun b => decide (b.user = r ∧ b.blockedUser = s)) = false)
    (h4 : rateGet κ now s < 3)
    (h5 : σ.requests.any (fun q => decide (q.sender = s ∧ q.receiver = r ∧
            q.status = RStatus.REJECTED ∧ now ≤ q.updatedAt + 86400)) = false) :
    ((sendRequestF (some k) σ κ now s r).2.1 = σ ∨
      sendRequestF (some k) σ κ now s r = sendRequest σ κ now s r) ∧
    (sendRequestF (some 2) σ κ now s r).2.1 = σ ∧
    (sendRequestF (some 2) σ κ now s r).2.2 =
      rateSet κ s (rateGet κ now s + 1) (now + 60) ∧
    (sendRequest σ κ now s r).1 = .created := by
  have hins := findPair_none_ordered σ.requests s r h1
  have hins' : ¬ ∃ x ∈ σ.requests, x.sender = s ∧ x.receiver = r := by
    simpa using hins
  have hnot3 : ¬ 3 ≤ rateGet κ now s := Nat.not_le.mpr h4
  have hmain : ∀ fa, sendRequestF fa σ κ now s r =
      match runOps true σ (σ, κ)
        [.db (.insertRequest ⟨σ.nextId, s, r, .PENDING, now, now⟩),
         .cacheRate s (rateGet κ now s + 1) (now + 60),
         .db (.insertActivity ⟨s, "Sent friend request", now⟩)] fa with
      | (sc, true) => (SendResult.created, sc.1, sc.2)
      | (sc, false) => (SendResult.integrityError, sc.1, sc.2) := by
    intro fa
    unfold sendRequestF
    simp only [h1]
    rw [if_neg (by simp only [h2]; decide), if_neg (by simp only [h3]; decide),
      if_neg hnot3, if_neg (by simp only [h5]; decide)]
  have hrunnone := runSendOps_eval σ κ now s r (rateGet κ now s + 1) hins
  have hrun0 : runOps true σ (σ, κ)
      [.db (.insertRequest ⟨σ.nextId, s, r, .PENDING, now, now⟩),
       .cacheRate s (rateGet κ now s + 1) (now + 60),
       .db (.insertActivity ⟨s, "Sent friend request", now⟩)] (some 0) =
      ((σ, κ), false) := by
    simp [runOps]
  have hrun1 : runOps true σ (σ, κ)
      [.db (.insertRequest ⟨σ.nextId, s, r, .PENDING, now, now⟩),
       .cacheRate s (rateGet κ now s + 1) (now + 60),
       .db (.insertActivity ⟨s, "Sent friend request", now⟩)] (some 1) =
      ((σ, κ), false) := by
    simp [runOps, applyWrite, applyDb, hins']
  have hrun2 : runOps true σ (σ, κ)
      [.db (.insertRequest ⟨σ.nextId, s, r, .PENDING, now, now⟩),
       .cacheRate s (rateGet κ now s + 1) (now + 60),
       .db (.insertActivity ⟨s, "Sent friend request", now⟩)] (some 2) =
      ((σ, rateSet κ s (rateGet κ now s + 1) (now + 60)), false) := by
    simp [runOps, applyWrite, applyDb, hins']
  have hrun3 : ∀ n, runOps true σ (σ, κ)
      [.db (.insertRequest ⟨σ.nextId, s, r, .PENDING, now, now⟩),
       .cacheRate s (rateGet κ now s + 1) (now + 60),
       .db (.insertActivity ⟨s, "Sent friend request", now⟩)] (some (n + 3)) =
      (({ σ with
            requests := σ.requests ++ [⟨σ.nextId, s, r, .PENDING, now, now⟩],
            activities := σ.activities ++ [⟨s, "Sent friend request", now⟩],
            nextId := σ.nextId + 1 },
         rateSet κ s (rateGet κ now s + 1) (now + 60)), true) := by
    intro n
    simp [runOps, applyWrite, applyDb, hins']
  refine ⟨?_, ?_, ?_, ?_⟩
  · match k with
    | 0 => left; rw [hmain (some 0), hrun0]
    | 1 => left; rw [hmain (some 1), hrun1]
    | 2 => left; rw [hmain (some 2), hrun2]
    | (n + 3) =>
        right
        show sendRequestF (some (n + 3)) σ κ now s r = sendRequestF none σ κ now s r
        rw [hmain (some (n + 3)), hmain none, hrunnone, hrun3 n]
  · rw [hmain (some 2), hrun2]
  · rw [hmain (some 2), hrun2]
  · show (sendRequestF none σ κ now s r).1 = .created
    rw [hmain none, hrunnone]

/-- C6 witness: the amended theorem at the concrete fresh store, with the
failure injected at the activity write. -/
theorem c6_witness :
    rateGet κ0 0 1 < 3 ∧
    (((sendRequestF (some 2) σc6 κ0 0 1 2).2.1 = σc6 ∨
        sendRequestF (some 2) σc6 κ0 0 1 2 = sendRequest σc6 κ0 0 1 2) ∧
      (sendRequestF (some 2) σc6 κ0 0 1 2).2.1 = σc6 ∧
      (sendRequestF (some 2) σc6 κ0 0 1 2).2.2 =
        rateSet κ0 1 (rateGet κ0 0 1 + 1) (0 + 60) ∧
      (sendRequest σc6 κ0 0 1 2).1 = .created) :=
  ⟨by decide,
   c6_db_atomic_cache_not σc6 κ0 0 1 2 2 (by decide) (by decide) (by decide)
     (by decide) (by decide)⟩

/-! ### Claim C7 -/

/-- A single pending request from user 1 to user 2. -/
def σc7 : Store := ⟨[1, 2], [⟨1, 1, 2, .PENDING, 0, 0⟩], [], [], [], 2⟩

/-- The pending request row of `σc7`. -/
def rc7 : FriendRequest := ⟨1, 1, 2, .PENDING, 0, 0⟩

/-- C7 counterexample: the re-check of the respond path evaluated on the
instance under response is NOT the send-path lookup for the instance's
(sender, receiver) pair: the send-path lookup finds the pending row (and
would reject), while the respond re-check — whose both bindings are the
caller — finds nothing, and the respond proceeds to update. -/
theorem c7_recheck_differs_from_send_check_cex :
    respondRecheck σc7.requests 2 rc7 = none ∧
    findPair σc7.requests rc7.sender rc7.receiver = some rc7 ∧
    respondRecheck σc7.requests 2 rc7 ≠ findPair σc7.requests rc7.sender rc7.receiver ∧
    (respond σc7 κ0 5 2 1 (some .ACCEPTED)).1 = .updated .ACCEPTED := by decide

/-- C7 amended: the respond path re-runs the same pair-lookup predicate
as the send path, but binds it to (caller, instance.receiver) — both the
responding receiver — rather than to the instance's (sender, receiver);
when THAT lookup finds a row (a self-request of the caller), the respond
rejects with the matching status-specific outcome. -/
theorem c7_recheck_rejects_on_caller_pair_row (σ : Store) (κ : Cache)
    (now caller reqId : Nat) (st : Option RStatus) (inst ex : FriendRequest)
    (hfind : σ.requests.find? (fun q => decide (q.id = reqId ∧ q.receiver = caller)) =
      some inst)
    (hex : respondRecheck σ.requests caller inst = some ex) :
    (respond σ κ now caller reqId st).1 =
      (match ex.status with
        | RStatus.PENDING => RespondResult.pendingExists
        | RStatus.ACCEPTED => RespondResult.alreadyFriends
        | RStatus.REJECTED => RespondResult.rejectedExists) := by
  unfold respond respondF
  simp only [hfind, hex]
  cases hst : ex.status <;> simp only [hst]

/-- Store for the C7 witness: the instance 1 → 2 plus a self-request of
user 2, which the caller-bound re-check finds. -/
def σw7 : Store :=
  ⟨[1, 2], [⟨1, 1, 2, .PENDING, 0, 0⟩, ⟨2, 2, 2, .PENDING, 3, 3⟩], [], [], [], 3⟩

/-- C7 witness: responding to request 1 rejects with the PENDING outcome
matched by the caller-bound lookup on the self-request row. -/
theorem c7_witness :
    (respond σw7 κ0 5 2 1 (some .ACCEPTED)).1 = .pendingExists :=
  c7_recheck_rejects_on_caller_pair_row σw7 κ0 5 2 1 (some .ACCEPTED)
    ⟨1, 1, 2, .PENDING, 0, 0⟩ ⟨2, 2, 2, .PENDING, 3, 3⟩ (by decide) (by decide)

/-! ### Claim C8 -/

/-- C8: unblocking a user who is not blocked reports NotBlocked and
changes nothing; unblocking a blocked user reports Unblocked, a second
unblock then reports NotBlocked, and no FriendRequest, Friendship or
activity row is restored or touched. -/
theorem c8_unblock_idempotent (σ : Store) (blocker target : Nat)
    (hne : target ≠ blocker) (hu : σ.users.contains target = true) :
    (σ.blocked.any (fun b => decide (b.user = blocker ∧ b.blockedUser = target)) = false →
      unblock σ blocker target = (.notBlocked, σ)) ∧
    (σ.blocked.any (fun b => decide (b.user = blocker ∧ b.blockedUser = target)) = true →
      (unblock σ blocker target).1 = .unblocked ∧
      (unblock (unblock σ blocker target).2 blocker target).1 = .notBlocked ∧
      (unblock σ blocker target).2.requests = σ.requests ∧
      (unblock σ blocker target).2.friendships = σ.friendships ∧
      (unblock σ blocker target).2.activities = σ.activities) := by
  constructor
  · intro hnb
    unfold unblock
    rw [if_neg hne, if_neg (by simp only [hu]; decide), if_neg (by simp only [hnb]; decide)]
  · intro hbk
    have hunb : unblock σ blocker target =
        (.unblocked,
          { σ with
              blocked :=
                σ.blocked.filter
                  (fun b => !decide (b.user = blocker ∧ b.blockedUser = target)) }) := by
      unfold unblock
      rw [if_neg hne, if_neg (by simp only [hu]; decide), if_pos hbk]
    have hfilter : (σ.blocked.filter
        (fun b => !decide (b.user = blocker ∧ b.blockedUser = target))).any
        (fun b => decide (b.user = blocker ∧ b.blockedUser = target)) = false := by
      rw [List.any_eq_false]
      intro b hbm
      have := (List.mem_filter.mp hbm).2
      simp only [Bool.not_eq_true', decide_eq_false_iff_not] at this
      simpa using this
    rw [hunb]
    refine ⟨rfl, ?_, rfl, rfl, rfl⟩
    unfold unblock
    rw [if_neg hne, if_neg (by simp only [hu]; decide),
      if_neg (by simp only [hfilter]; decide)]

/-- Store for the C8 witness: user 1 blocks user 2, with unrelated rows
present. -/
def σw8 : Store :=
  ⟨[1, 2], [⟨99, 5, 6, .PENDING, 0, 0⟩], [⟨5, 6, 0⟩], [⟨1, 2, 0⟩], [], 100⟩

/-- C8 witness: the idempotence theorem applied to a concrete blocked
pair: first unblock succeeds, a second reports NotBlocked, and the other
tables are untouched. -/
theorem c8_witness :
    (unblock σw8 1 2).1 = .unblocked ∧
    (unblock (unblock σw8 1 2).2 1 2).1 = .notBlocked ∧
    (unblock σw8 1 2).2.requests = σw8.requests ∧
    (unblock σw8 1 2).2.friendships = σw8.friendships ∧
    (unblock σw8 1 2).2.activities = σw8.activities :=
  (c8_unblock_idempotent σw8 1 2 (by decide) (by decide)).2 (by decide)

/-! ### Claim C9 -/

/-- C9: whenever `perform_create` answers with one of its check
rejections, the store and the cache are returned unchanged — no row
inserted, no activity appended, no counter consumed. -/
theorem c9_rejection_leaves_state_unchanged (σ : Store) (κ : Cache) (now s r : Nat)
    (hrej : (sendRequest σ κ now s r).1.isCheckRejection = true) :
    (sendRequest σ κ now s r).2.1 = σ ∧ (sendRequest σ κ now s r).2.2 = κ := by
  obtain ⟨res, σ', κ', hrun⟩ : ∃ res σ' κ', sendRequest σ κ now s r = (res, σ', κ') :=
    ⟨_, _, _, rfl⟩
  rw [hrun] at hrej ⊢
  unfold sendRequest sendRequestF at hrun
  repeat' split at hrun
  all_goals (
    injection hrun with ha hbc
    injection hbc with hb hc
    subst ha
    subst hb
    subst hc
    first
      | exact ⟨rfl, rfl⟩
      | simp [SendResult.isCheckRejection] at hrej)

/-- Store for the C9 witness: a pending row already connects the pair. -/
def σc9 : Store := ⟨[1, 2], [⟨1, 1, 2, .PENDING, 0, 0⟩], [], [], [], 2⟩

/-- C9 witness: the unchanged-state theorem applied to a concrete
duplicate-pair rejection. -/
theorem c9_witness :
    (sendRequest σc9 κ0 5 1 2).1.isCheckRejection = true ∧
    ((sendRequest σc9 κ0 5 1 2).2.1 = σc9 ∧ (sendRequest σc9 κ0 5 1 2).2.2 = κ0) :=
  ⟨by decide, c9_rejection_leaves_state_unchanged σc9 κ0 5 1 2 (by decide)⟩

/-! ### Claim C10 -/

/-- The store after a request 1 → 2 was accepted: the ACCEPTED row, both
Friendship rows and the activity entry. -/
def σc10 : Store :=
  ⟨[1, 2], [⟨1, 1, 2, .ACCEPTED, 0, 5⟩], [⟨1, 2, 5⟩, ⟨2, 1, 5⟩], [],
   [⟨2, "Accepted friend request", 5⟩], 2⟩

/-- C10: the respond re-check binds both sides of the pair query to the
caller, so over any request table without self-requests it matches no row
and never rejects; consequently respond applies again to a request
already ACCEPTED, and re-accepting attempts Friendship inserts that
violate the (user, friend) uniqueness constraint — an integrity error,
not a business-rule rejection — while the status update has already been
applied and the duplicate insert is refused. -/
theorem c10_recheck_trivial_reaccept_integrity (reqs : List FriendRequest)
    (caller : Nat) (inst : FriendRequest)
    (hrcv : inst.receiver = caller)
    (hnoself : ∀ q ∈ reqs, q.sender ≠ q.receiver) :
    respondRecheck reqs caller inst = none ∧
    (respond σc10 κ0 9 2 1 (some .ACCEPTED)).1 = .integrityError ∧
    (respond σc10 κ0 9 2 1 (some .ACCEPTED)).2.1.requests =
      [⟨1, 1, 2, .ACCEPTED, 0, 9⟩] ∧
    (respond σc10 κ0 9 2 1 (some .ACCEPTED)).2.1.friendships = σc10.friendships := by
  refine ⟨?_, by decide, by decide, by decide⟩
  unfold respondRecheck findPair
  rw [hrcv]
  refine List.find?_eq_none.mpr ?_
  intro q hq
  simp only [decide_eq_true_eq]
  rintro (⟨hs, hr⟩ | ⟨hs, hr⟩) <;> exact hnoself q hq (hs.trans hr.symm)

/-- C10 witness: the theorem applied to the accepted store's own request
table and its ACCEPTED row. -/
theorem c10_witness :
    respondRecheck σc10.requests 2 ⟨1, 1, 2, .ACCEPTED, 0, 5⟩ = none ∧
    (respond σc10 κ0 9 2 1 (some .ACCEPTED)).1 = .integrityError ∧
    (respond σc10 κ0 9 2 1 (some .ACCEPTED)).2.1.requests =
      [⟨1, 1, 2, .ACCEPTED, 0, 9⟩] ∧
    (respond σc10 κ0 9 2 1 (some .ACCEPTED)).2.1.friendships = σc10.friendships :=
  c10_recheck_trivial_reaccept_integrity σc10.requests 2 ⟨1, 1, 2, .ACCEPTED, 0, 5⟩ rfl
    (by decide)

end SocialNetwork
